import Mathlib

/-!
# Culinary Canvas — verification of the generation-pipeline state machine

A shallow embedding of the Culinary Canvas cooking-assistant page and its
AI flows.  The repository contains several design variants of the page
component and of the AI flows; where a claim touches more than one variant
the embedding carries each variant under a suffix:

* `_p0` — the variant in `src/unnamed/part_000`;
* `_p1` — the first variant in `src/unnamed/part_001` (lines 1–795);
* `_v3` — the second variant in `src/unnamed/part_001` (lines 797–1355);
* `_p2` — the flow variant in `src/unnamed/part_002`;
* `_src` — the flows under `src/src/ai/flows`.

Network calls are suspension points: each handler is split into its
synchronous prefix (everything executed before the first `await`) and a
settlement continuation that consumes the call results, which are passed
in explicitly as `Except`/`Option` values.
-/

deriving instance DecidableEq for Except

namespace CulinaryCanvas

/-- A generic failure carried by a rejected promise / thrown error. -/
inductive GenError where
  | err (msg : String)
deriving DecidableEq, Repr

/-- Output schema of `generateRecipe` (`GenerateRecipeOutputSchema`). -/
structure GenerateRecipeOutput where
  recipeName : String
  ingredients : List String
  instructions : List String
  nutritionalInformation : Option String := none
deriving DecidableEq, Repr

/-- `type ActiveRecipe = GenerateRecipeOutput & { imageUrl?, imageHint? }`. -/
structure ActiveRecipe where
  recipeName : String
  ingredients : List String
  instructions : List String
  nutritionalInformation : Option String := none
  imageUrl : Option String := none
  imageHint : Option String := none
deriving DecidableEq, Repr

/-- A recipe suggestion (`RecipeSuggestionSchema`): name and description.
The `imageUrl` field is the optional preview image present in the
`suggest-recipes` variant embedded in `src/src/ai/flows/generate-recipe.ts`
and consumed by the page variants. -/
structure RecipeSuggestion where
  recipeName : String
  description : String
  imageUrl : Option String := none
deriving DecidableEq, Repr

/-- `type RecipeSuggestionWithImage = RecipeSuggestion & { imageUrl?, isLoadingImage? }`
from the `_v3` page variant. -/
structure RecipeSuggestionWithImage where
  recipeName : String
  description : String
  imageUrl : Option String := none
  isLoadingImage : Bool := false
deriving DecidableEq, Repr

/-- The `isLoading` state of the page:
`useState<"detect" | "suggest" | "recipe" | false>(false)`. -/
inductive LoadingFlag where
  | off
  | detect
  | suggest
  | recipe
deriving DecidableEq, Repr

/-- The page-level pipeline state shared by all variants: the raw
ingredients string, the suggestion list, the active recipe and the
exclusive loading flag. -/
structure PageState where
  ingredients : String
  suggestedRecipes : List RecipeSuggestion
  activeRecipe : Option ActiveRecipe
  isLoading : LoadingFlag
deriving DecidableEq, Repr

/-- Page state of the `_v3` variant, whose suggestion list carries
per-item image slots (`RecipeSuggestionWithImage`). -/
structure PageState3 where
  ingredients : String
  suggestedRecipes : List RecipeSuggestionWithImage
  activeRecipe : Option ActiveRecipe
  isLoading : LoadingFlag
deriving DecidableEq, Repr

/-! ## Ingredient normalization and detection merge

`ingredients.split(',').map(i => i.trim()).filter(Boolean)` and
`setIngredients(prev => [...new Set([...parsed(prev), ...result.foodItems])].join(', '))`
(identical in `handleDetectFood` of all three page variants). -/

/-- `s.split(sep)` for a single-character separator, as in JavaScript:
splitting the empty string yields `[""]`, and a trailing separator yields
a trailing empty fragment. -/
def jsSplitAux (sep : Char) : List Char → List Char → List String
  | [], acc => [String.mk acc.reverse]
  | c :: cs, acc =>
    if c = sep then String.mk acc.reverse :: jsSplitAux sep cs []
    else jsSplitAux sep cs (c :: acc)

/-- `s.split(sep)` (JavaScript, single-character separator). -/
def jsSplit (sep : Char) (s : String) : List String :=
  jsSplitAux sep s.data []

/-- `s.trim()` (JavaScript): strip whitespace from both ends. -/
def jsTrim (s : String) : String :=
  String.mk (((s.data.dropWhile Char.isWhitespace).reverse.dropWhile
    Char.isWhitespace).reverse)

/-- `ingredients.split(',').map(i => i.trim()).filter(Boolean)`:
the normalization applied to the ingredients string before every
pipeline call. -/
def parseIngredients (s : String) : List String :=
  ((jsSplit ',' s).map jsTrim).filter (fun i => i ≠ "")

/-- Insertion scan behind `[...new Set(l)]`: `seen` holds the elements
already inserted; an element already seen is skipped. -/
def jsSetDedupAux (seen : List String) : List String → List String
  | [] => []
  | x :: xs =>
    if x ∈ seen then jsSetDedupAux seen xs
    else x :: jsSetDedupAux (x :: seen) xs

/-- `[...new Set(l)]`: JavaScript `Set` iteration keeps the first
occurrence of each element and drops later exact duplicates. -/
def jsSetDedup (l : List String) : List String :=
  jsSetDedupAux [] l

/-- The merged ingredient list built inside `handleDetectFood`:
`[...new Set([...prev.split(',').map(trim).filter(Boolean), ...result.foodItems])]`.
Note that the freshly detected `foodItems` are merged verbatim — they are
not trimmed and blank items are not filtered. -/
def mergedIngredientList (prev : String) (foodItems : List String) : List String :=
  jsSetDedup (parseIngredients prev ++ foodItems)

/-- The new ingredients string stored by `handleDetectFood` on success:
the merged list joined with `', '`. -/
def mergeDetectedIngredients (prev : String) (foodItems : List String) : String :=
  String.intercalate ", " (mergedIngredientList prev foodItems)

/-! ## Pipeline stage gating — `handleSuggestRecipes` (part_000)

The handler itself checks only for an empty ingredient list; mutual
exclusion of stages is enforced at the trigger: the Suggest Recipes
button carries `disabled={isLoading !== false}`, so a click never reaches
the handler unless the pipeline is idle. -/

/-- `disabled={isLoading !== false}` on the Suggest Recipes button. -/
def suggestButtonDisabled (s : PageState) : Bool :=
  s.isLoading ≠ LoadingFlag.off

/-- Synchronous prefix of `handleSuggestRecipes` (part_000), up to the
`await suggestRecipes(...)`.  Returns the state after the prefix and
whether the suggestion network call was issued. -/
def handleSuggestRecipesSync (s : PageState) : PageState × Bool :=
  let ingredientList := parseIngredients s.ingredients
  if ingredientList = [] then (s, false)
  else ({ s with isLoading := LoadingFlag.suggest,
                 activeRecipe := none,
                 suggestedRecipes := [] }, true)

/-- Clicking the Suggest Recipes button: a disabled button never fires its
`onClick`, so the handler only runs when `isLoading === false`. -/
def triggerSuggestRecipes (s : PageState) : PageState × Bool :=
  if suggestButtonDisabled s then (s, false)
  else handleSuggestRecipesSync s

/-! ## `handleGenerateRecipe` (part_000, lines 615–689)

The handler publishes a shell recipe synchronously, then awaits
`Promise.allSettled([generateRecipe(...), generateImage(...)])` and runs a
single continuation once both promises have settled.  The two settlements
may arrive in either order; the continuation is only reached after both. -/

/-- Output schema of `generateImage` with optional `imageUrl`
(`src/src/ai/flows/generate-image.ts`, `src/ai/schemas.ts`). -/
structure GenerateImageOutput where
  imageUrl : Option String := none
deriving DecidableEq, Repr

/-- `recipeName.split(' ').slice(0, 2).join(' ')` — the deterministic
image hint derived from the first two words of the recipe name. -/
def imageHintOf (recipeName : String) : String :=
  String.intercalate " " ((jsSplit ' ' recipeName).take 2)

/-- Synchronous prefix of `handleGenerateRecipe` (part_000): validate the
ingredient list, set `isLoading` to `"recipe"` and publish the shell
`ActiveRecipe` (name only, empty lists). -/
def handleGenerateRecipeSync_p0 (s : PageState) (recipeName : String) : PageState :=
  if parseIngredients s.ingredients = [] then s
  else { s with isLoading := LoadingFlag.recipe,
                activeRecipe := some { recipeName := recipeName,
                                       ingredients := [],
                                       instructions := [] } }

/-- Continuation of `handleGenerateRecipe` (part_000) after both promises
of the `Promise.allSettled` pair have settled.  A rejected recipe call is
fatal: the active recipe is cleared and the handler returns without ever
consulting the image settlement.  A rejected image call is absorbed and
the final recipe simply has no image. -/
def handleGenerateRecipeSettle_p0 (s : PageState) (recipeName : String)
    (recipeSettled : Except GenError GenerateRecipeOutput)
    (imageSettled : Except GenError GenerateImageOutput) : PageState :=
  match recipeSettled with
  | .error _ => { s with activeRecipe := none, isLoading := LoadingFlag.off }
  | .ok recipeResult =>
      let imageResult : Option GenerateImageOutput :=
        match imageSettled with
        | .ok v => some v
        | .error _ => none
      let finalRecipe : ActiveRecipe :=
        { recipeName := recipeResult.recipeName,
          ingredients := recipeResult.ingredients,
          instructions := recipeResult.instructions,
          nutritionalInformation := recipeResult.nutritionalInformation,
          imageUrl := imageResult.bind (fun r => r.imageUrl),
          imageHint := some (imageHintOf recipeName) }
      { s with activeRecipe := some finalRecipe, isLoading := LoadingFlag.off }

/-- One settlement of the `Promise.allSettled` pair inside
`handleGenerateRecipe` (part_000): either the recipe-text promise or the
recipe-image promise settles, fulfilled or rejected. -/
inductive SettleEvent where
  | text (r : Except GenError GenerateRecipeOutput)
  | image (r : Except GenError GenerateImageOutput)
deriving DecidableEq, Repr

/-- The recipe-text settlement recorded in an event trace, if present. -/
def collectText : List SettleEvent → Option (Except GenError GenerateRecipeOutput)
  | [] => none
  | SettleEvent.text r :: _ => some r
  | SettleEvent.image _ :: es => collectText es

/-- The recipe-image settlement recorded in an event trace, if present. -/
def collectImage : List SettleEvent → Option (Except GenError GenerateImageOutput)
  | [] => none
  | SettleEvent.image r :: _ => some r
  | SettleEvent.text _ :: es => collectImage es

/-- A full run of `handleGenerateRecipe` (part_000) over a trace of
settlement events: the synchronous prefix runs first; the
`Promise.allSettled` continuation runs only once both calls have settled,
and consumes the recorded results irrespective of their arrival order. -/
def runHandleGenerateRecipe_p0 (s : PageState) (recipeName : String)
    (events : List SettleEvent) : PageState :=
  if parseIngredients s.ingredients = [] then s
  else
    let s1 := handleGenerateRecipeSync_p0 s recipeName
    match collectText events, collectImage events with
    | some recipeSettled, some imageSettled =>
        handleGenerateRecipeSettle_p0 s1 recipeName recipeSettled imageSettled
    | _, _ => s1

/-! ## `handleGenerateRecipe` (part_001, lines 1149–1187, variant `_v3`)

This variant carries the originating suggestion's image over to the
recipe, and publishes the shell only when no recipe is currently active:
"If a recipe is already active, the loading overlay will just appear over
the old content." -/

/-- Synchronous prefix of `handleGenerateRecipe` in the `_v3` variant. -/
def handleGenerateRecipeSync_v3 (s : PageState3) (recipeName : String) : PageState3 :=
  if parseIngredients s.ingredients = [] then s
  else
    let suggestion := s.suggestedRecipes.find? (fun r => r.recipeName = recipeName)
    let s1 := { s with isLoading := LoadingFlag.recipe }
    match s.activeRecipe with
    | none =>
        let shell : ActiveRecipe :=
          { recipeName := recipeName,
            ingredients := [],
            instructions := [],
            imageUrl := suggestion.bind (fun r => r.imageUrl) }
        { s1 with activeRecipe := some shell }
    | some _ => s1

/-- Continuation of `handleGenerateRecipe` (`_v3`) once the single
`generateRecipe` call settles: on success the active recipe is replaced
wholesale by the result (with the suggestion's image); on failure it is
cleared. -/
def handleGenerateRecipeSettle_v3 (s : PageState3) (recipeName : String)
    (result : Except GenError GenerateRecipeOutput) : PageState3 :=
  let suggestion := s.suggestedRecipes.find? (fun r => r.recipeName = recipeName)
  match result with
  | .ok recipeResult =>
      let finalRecipe : ActiveRecipe :=
        { recipeName := recipeResult.recipeName,
          ingredients := recipeResult.ingredients,
          instructions := recipeResult.instructions,
          nutritionalInformation := recipeResult.nutritionalInformation,
          imageUrl := suggestion.bind (fun r => r.imageUrl) }
      { s with activeRecipe := some finalRecipe, isLoading := LoadingFlag.off }
  | .error _ => { s with activeRecipe := none, isLoading := LoadingFlag.off }

/-! ## Conversation controller — `handleSendMessage`

`ChefChatDialog` appends a user turn synchronously, issues the `askChef`
call, and on settlement appends a model turn.  The part_000 dialog
appends a fixed fallback apology on failure; the part_001 dialog's catch
block is `// Fail silently` and appends nothing. -/

/-- Chat turn role. -/
inductive ChatRole where
  | user
  | model
deriving DecidableEq, Repr

/-- `type ChatMessage = { role: 'user' | 'model'; content: string }`. -/
structure ChatMessage where
  role : ChatRole
  content : String
deriving DecidableEq, Repr

/-- Output schema of `askChef`. -/
structure AskChefOutput where
  answer : String
deriving DecidableEq, Repr

/-- State of the chef chat dialog. -/
structure ChatState where
  messages : List ChatMessage
  input : String
  isChefLoading : Bool
deriving DecidableEq, Repr

/-- The fixed fallback apology appended by the part_000 dialog when the
`askChef` call rejects. -/
def chefFallbackMessage : String :=
  "Sorry, I'm having trouble responding right now. Please try again in a moment."

/-- `handleSendMessage` (part_000, lines 135–161) over the settlement of
the `askChef` call.  The guard rejects blank input and re-entrant sends;
otherwise the user turn is appended synchronously and the model turn (the
answer, or the fixed fallback apology) is appended when the call settles.
No error channel outside the transcript is touched — the catch block only
logs. -/
def handleSendMessage_p0 (st : ChatState)
    (callResult : Except GenError AskChefOutput) : ChatState :=
  if jsTrim st.input = "" ∨ st.isChefLoading then st
  else
    let afterUser : ChatState :=
      { messages := st.messages ++ [{ role := ChatRole.user, content := st.input }],
        input := "",
        isChefLoading := true }
    match callResult with
    | .ok result =>
        { afterUser with
          messages := afterUser.messages ++ [{ role := ChatRole.model, content := result.answer }],
          isChefLoading := false }
    | .error _ =>
        { afterUser with
          messages := afterUser.messages ++ [{ role := ChatRole.model, content := chefFallbackMessage }],
          isChefLoading := false }

/-- `handleSendMessage` (part_001, lines 129–153): identical except that
the catch block is `// Fail silently` — on failure no model turn is
appended. -/
def handleSendMessage_p1 (st : ChatState)
    (callResult : Except GenError AskChefOutput) : ChatState :=
  if jsTrim st.input = "" ∨ st.isChefLoading then st
  else
    let afterUser : ChatState :=
      { messages := st.messages ++ [{ role := ChatRole.user, content := st.input }],
        input := "",
        isChefLoading := true }
    match callResult with
    | .ok result =>
        { afterUser with
          messages := afterUser.messages ++ [{ role := ChatRole.model, content := result.answer }],
          isChefLoading := false }
    | .error _ => { afterUser with isChefLoading := false }

/-! ## Speech output — `handleReadAloud`

`window.speechSynthesis` is a process-wide singleton holding a queue of
utterances; `speak` enqueues, `cancel` empties the queue, `pause`/`resume`
toggle playback.  The component keeps its own
`speechStatus : 'idle' | 'speaking' | 'paused'`. -/

/-- Component speech status (`useState<'idle' | 'speaking' | 'paused'>`). -/
inductive SpeechStatus where
  | idle
  | speaking
  | paused
deriving DecidableEq, Repr

/-- The speech-synthesis engine: the queue of utterance texts (head is the
utterance currently being produced) and the paused flag. -/
structure SynthState where
  queue : List String
  paused : Bool
deriving DecidableEq, Repr

/-- `synth.cancel()`: removes all utterances from the queue. -/
def synthCancel (st : SynthState) : SynthState :=
  { st with queue := [] }

/-- `synth.speak(u)`: appends the utterance to the queue. -/
def synthSpeak (st : SynthState) (text : String) : SynthState :=
  { st with queue := st.queue ++ [text] }

/-- `synth.pause()`. -/
def synthPause (st : SynthState) : SynthState :=
  { st with paused := true }

/-- `synth.resume()`. -/
def synthResume (st : SynthState) : SynthState :=
  { st with paused := false }

/-- `.replace(/\s+/g, ' ')` over an already-trimmed string: every maximal
run of whitespace characters becomes a single space.  The `prevWs` flag
records whether the previous character belonged to a whitespace run. -/
def collapseWsAux : List Char → Bool → List Char
  | [], _ => []
  | c :: cs, prevWs =>
    if c.isWhitespace then
      if prevWs then collapseWsAux cs true
      else ' ' :: collapseWsAux cs true
    else c :: collapseWsAux cs false

/-- `s.trim().replace(/\s+/g, ' ')`. -/
def trimCollapseWs (s : String) : String :=
  String.mk (collapseWsAux (jsTrim s).data false)

/-- The utterance text built by `handleReadAloud` (part_000):
a template literal with the recipe name and the instructions joined by
`'. '`, trimmed and whitespace-collapsed. -/
def textForSpeech_p0 (recipe : ActiveRecipe) : String :=
  trimCollapseWs ("\n        Recipe for " ++ recipe.recipeName ++
    ".\n        Instructions: " ++ String.intercalate ". " recipe.instructions ++
    "\n      ")

/-- The utterance text built by `handleReadAloud` (part_001): name,
ingredients and numbered steps joined by `'. '`. -/
def textToSpeak_p1 (recipe : ActiveRecipe) : String :=
  String.intercalate ". "
    (["Recipe for " ++ recipe.recipeName ++ "."] ++
     ["The ingredients are:"] ++ recipe.ingredients ++
     ["The instructions are:"] ++
     recipe.instructions.enum.map (fun p => "Step " ++ toString (p.1 + 1) ++ ": " ++ p.2))

/-- `handleReadAloud` (part_000, lines 303–353): while `speaking` the
button pauses, while `paused` it resumes; only from `idle` does it cancel
any previous utterance and speak a new one.  (The transition to
`speaking` happens later in the `onstart` callback.) -/
def handleReadAloud_p0 (status : SpeechStatus) (synth : SynthState)
    (recipe : ActiveRecipe) : SpeechStatus × SynthState :=
  match status with
  | SpeechStatus.speaking => (SpeechStatus.paused, synthPause synth)
  | SpeechStatus.paused => (SpeechStatus.speaking, synthResume synth)
  | SpeechStatus.idle =>
      (SpeechStatus.idle, synthSpeak (synthCancel synth) (textForSpeech_p0 recipe))

/-- `handleReadAloud` (part_001, lines 273–298): a guard returns
immediately unless the speech state is `idle`; the idle branch speaks the
new utterance (without a preceding `cancel`). -/
def handleReadAloud_p1 (status : SpeechStatus) (synth : SynthState)
    (recipe : ActiveRecipe) : SpeechStatus × SynthState :=
  if status ≠ SpeechStatus.idle then (status, synth)
  else (status, synthSpeak synth (textToSpeak_p1 recipe))

/-! ## Camera setup — `setupWebcam`

`setupWebcam` re-enumerates video inputs every time the camera is enabled
or the selection changes; when the selection is empty or no longer among
the enumerated devices it repairs the selection with a labeled default.
part_000 prefers a facetime/built-in/integrated-labeled device; the `_v3`
variant prefers an external (usb / not-built-in) device; both fall back
to the first enumerated device. -/

/-- `{ deviceId, label }` of a `videoinput` device. -/
structure MediaDeviceInfo where
  deviceId : String
  label : String
deriving DecidableEq, Repr

/-- `needle` occurs as a contiguous subsequence of `hay`. -/
def containsSeq (needle : List Char) : List Char → Bool
  | [] => needle.isEmpty
  | c :: cs => needle.isPrefixOf (c :: cs) || containsSeq needle cs

/-- `s.includes(pat)` (JavaScript substring containment). -/
def strIncludes (s pat : String) : Bool :=
  containsSeq pat.data s.data

/-- `c.toLowerCase()` on a single character. -/
def jsToLower (s : String) : String :=
  String.mk (s.data.map Char.toLower)

/-- `d.label.toLowerCase().includes(pat)`. -/
def labelIncludes (d : MediaDeviceInfo) (pat : String) : Bool :=
  strIncludes (jsToLower d.label) pat

/-- The integrated-camera predicate of part_000's `setupWebcam`. -/
def isIntegratedLabel (d : MediaDeviceInfo) : Bool :=
  labelIncludes d "facetime" || labelIncludes d "built-in" || labelIncludes d "integrated"

/-- The external-camera predicate of the `_v3` variant's `setupWebcam`. -/
def isExternalLabel (d : MediaDeviceInfo) : Bool :=
  labelIncludes d "usb" ||
    (!labelIncludes d "built-in" && !labelIncludes d "facetime" && !labelIncludes d "integrated")

/-- JavaScript truthiness of a possibly-undefined string: `undefined` and
the empty string are falsy. -/
def jsTruthy : Option String → Bool
  | none => false
  | some s => s ≠ ""

/-- `a || b` on possibly-undefined strings. -/
def jsOrStr (a b : Option String) : Option String :=
  if jsTruthy a then a else b

/-- Result of one `setupWebcam` run: the published device list and
selection, whether the webcam is still on, and which stream was requested
(`some (some id)` = exact device, `some none` = generic `video: true`,
`none` = no devices found, the handler threw). -/
structure CamSetupResult where
  videoDevices : List MediaDeviceInfo
  selectedCamera : String
  isWebcamOn : Bool
  requestedDevice : Option (Option String)
deriving DecidableEq, Repr

/-- The repaired `cameraToUse` of part_000's `setupWebcam`: keep a
selection that is still enumerated, otherwise prefer an
integrated-labeled device and fall back to the first device. -/
def cameraToUse_p0 (videoInputs : List MediaDeviceInfo) (selectedCamera : String) :
    Option String :=
  if selectedCamera = "" ∨ (videoInputs.find? (fun d => d.deviceId = selectedCamera)).isNone then
    jsOrStr ((videoInputs.find? isIntegratedLabel).map (fun d => d.deviceId))
      (videoInputs.head?.map (fun d => d.deviceId))
  else some selectedCamera

/-- The repaired `cameraToUse` of the `_v3` variant: as part_000 but
preferring an external-labeled device. -/
def cameraToUse_v3 (videoInputs : List MediaDeviceInfo) (selectedCamera : String) :
    Option String :=
  if selectedCamera = "" ∨ (videoInputs.find? (fun d => d.deviceId = selectedCamera)).isNone then
    jsOrStr ((videoInputs.find? isExternalLabel).map (fun d => d.deviceId))
      (videoInputs.head?.map (fun d => d.deviceId))
  else some selectedCamera

/-- `setupWebcam` (part_000, lines 467–512) given the fresh enumeration,
the current selection and whether `getUserMedia` succeeds: repair the
selection, then acquire a stream bound to the chosen device (or any
stream if no usable id), turning the webcam off if everything fails. -/
def setupWebcam_p0 (videoInputs : List MediaDeviceInfo) (selectedCamera : String)
    (gumOk : Bool) : CamSetupResult :=
  let repairing := selectedCamera = "" ∨
    (videoInputs.find? (fun d => d.deviceId = selectedCamera)).isNone
  let cam := cameraToUse_p0 videoInputs selectedCamera
  let sel' := if repairing ∧ jsTruthy cam then cam.getD "" else selectedCamera
  if jsTruthy cam then
    { videoDevices := videoInputs, selectedCamera := sel',
      isWebcamOn := gumOk, requestedDevice := some (some (cam.getD "")) }
  else if videoInputs.length > 0 then
    { videoDevices := videoInputs, selectedCamera := sel',
      isWebcamOn := gumOk, requestedDevice := some none }
  else
    { videoDevices := videoInputs, selectedCamera := sel',
      isWebcamOn := false, requestedDevice := none }

/-- `setupWebcam` of the `_v3` variant (part_001, lines 974–1023): same
control flow as part_000 with the external-camera preference. -/
def setupWebcam_v3 (videoInputs : List MediaDeviceInfo) (selectedCamera : String)
    (gumOk : Bool) : CamSetupResult :=
  let repairing := selectedCamera = "" ∨
    (videoInputs.find? (fun d => d.deviceId = selectedCamera)).isNone
  let cam := cameraToUse_v3 videoInputs selectedCamera
  let sel' := if repairing ∧ jsTruthy cam then cam.getD "" else selectedCamera
  if jsTruthy cam then
    { videoDevices := videoInputs, selectedCamera := sel',
      isWebcamOn := gumOk, requestedDevice := some (some (cam.getD "")) }
  else if videoInputs.length > 0 then
    { videoDevices := videoInputs, selectedCamera := sel',
      isWebcamOn := gumOk, requestedDevice := some none }
  else
    { videoDevices := videoInputs, selectedCamera := sel',
      isWebcamOn := false, requestedDevice := none }

/-! ## Generation flows

Each flow body is a function of the model response, passed in explicitly:
`Option String` models `media?.url` of an image generation, and
`Option Output` models the structured `output` of a prompt (which the
model may fail to produce).  `ai.defineFlow` validates the body's return
value against the declared output schema. -/

/-- `generateImageFlow` in `src/src/ai/flows/generate-image.ts`
(lines 33–66): the whole generation is wrapped in `try/catch`; a thrown
error or a missing `media?.url` both yield a successful
`{ imageUrl: undefined }` result. -/
def generateImageFlow_src (gen : Except GenError (Option String)) :
    Except GenError GenerateImageOutput :=
  match gen with
  | .error _ => .ok { imageUrl := none }
  | .ok mediaUrl =>
      if jsTruthy mediaUrl then .ok { imageUrl := mediaUrl }
      else .ok { imageUrl := none }

/-- Output schema of `generateImage` in the part_002 variant: `imageUrl`
is a required string. -/
structure GenerateImageOutputStrict where
  imageUrl : String
deriving DecidableEq, Repr

/-- `generateImageFlow` in `src/unnamed/part_002` (lines 32–53): no
`try/catch` — a generation failure propagates, and a missing `media?.url`
throws `new Error('Image generation failed.')`. -/
def generateImageFlow_p2 (gen : Except GenError (Option String)) :
    Except GenError GenerateImageOutputStrict :=
  match gen with
  | .error e => .error e
  | .ok (some url) =>
      if url = "" then .error (GenError.err "Image generation failed.")
      else .ok { imageUrl := url }
  | .ok none => .error (GenError.err "Image generation failed.")

/-- Output of `suggestRecipes`. -/
structure SuggestRecipesOutput where
  recipes : List RecipeSuggestion
deriving DecidableEq, Repr

/-- The per-suggestion image enrichment inside `suggestRecipesFlow`
(`src/src/ai/flows/generate-recipe.ts`, lines 146–174): each suggestion's
image generation runs in its own `try/catch`, so a failing item keeps its
name and description with `imageUrl: undefined`. -/
def enrichSuggestion (recipe : RecipeSuggestion)
    (outcome : Except GenError (Option String)) : RecipeSuggestion :=
  match outcome with
  | .ok mediaUrl => { recipe with imageUrl := mediaUrl }
  | .error _ => { recipe with imageUrl := none }

/-- `suggestRecipesFlow` (`src/src/ai/flows/generate-recipe.ts`,
lines 134–177): a missing text output returns an empty batch; otherwise
every suggestion is enriched independently and the whole batch is
returned.  `outcome` i is the settlement of suggestion i's image
generation. -/
def suggestRecipesFlow_src (textOutput : Option (List RecipeSuggestion))
    (outcomes : List (Except GenError (Option String))) : SuggestRecipesOutput :=
  match textOutput with
  | none => { recipes := [] }
  | some recipes => { recipes := List.zipWith enrichSuggestion recipes outcomes }

/-! ## Client-side per-item enrichment (`_v3`, part_001 lines 1116–1139)

`handleSuggestRecipes` publishes the suggestions with
`isLoadingImage: true`, then fires one independent `generateImage` call
per suggestion; each callback writes back only to its own index, and a
failing callback merely clears that item's loading flag. -/

/-- `result.recipes.map(r => ({...r, isLoadingImage: true}))`. -/
def initSuggestions_v3 (recipes : List RecipeSuggestion) : List RecipeSuggestionWithImage :=
  recipes.map (fun r =>
    { recipeName := r.recipeName, description := r.description,
      imageUrl := r.imageUrl, isLoadingImage := true })

/-- The field updates one enrichment callback performs on its own item:
on a fulfilled call the item's `imageUrl` and loading flag are written;
on a rejected call only the loading flag is cleared. -/
def enrichItem (item : RecipeSuggestionWithImage)
    (outcome : Except GenError GenerateImageOutput) : RecipeSuggestionWithImage :=
  match outcome with
  | .ok imageResult => { item with imageUrl := imageResult.imageUrl, isLoadingImage := false }
  | .error _ => { item with isLoadingImage := false }

/-- One enrichment callback of the `_v3` variant: the functional update
applied by `setSuggestedRecipes(prev => ...)` for suggestion `i`.  An
out-of-range index (`if (newRecipes[index])`) leaves the list
unchanged. -/
def applyEnrichment_v3 (l : List RecipeSuggestionWithImage) (i : Nat)
    (outcome : Except GenError GenerateImageOutput) : List RecipeSuggestionWithImage :=
  match l[i]? with
  | none => l
  | some item => l.set i (enrichItem item outcome)

/-- All enrichment callbacks applied in their settlement order: each
element of `order` is the index of a suggestion paired with the
settlement of its image call. -/
def applyEnrichments_v3 (l : List RecipeSuggestionWithImage)
    (order : List (Nat × Except GenError GenerateImageOutput)) :
    List RecipeSuggestionWithImage :=
  order.foldl (fun acc p => applyEnrichment_v3 acc p.1 p.2) l

/-! ## Generation client output validation

Modelled from the spec: genkit's `ai.defineFlow` wrapper (an external
library, not part of `src/`) validates the flow body's return value
against the declared Zod output schema, so a `null`/missing structured
output surfaces as a thrown schema error rather than a success value
("schema-validated on the way out (consumer may assume the declared shape
or a thrown/rejected failure — no partially-shaped success values)"). -/

/-- Modelled from the spec: the output-schema validation performed by
`ai.defineFlow` on the flow body's return value; `none` is the body
returning the model's missing structured output (`output!` evaluating to
`null`). -/
def validateFlowOutput (o : Option α) : Except GenError α :=
  match o with
  | some v => .ok v
  | none => .error (GenError.err "schema validation failed: no output")

/-- Input schema of `generateRecipe`. -/
structure GenerateRecipeInput where
  recipeName : String
  ingredients : List String
  dietaryRestrictions : String
deriving DecidableEq, Repr

/-- `generateRecipeFlow` (`src/src/ai/flows/generate-recipe.ts`,
lines 54–67): the body overwrites the returned name with the requested
one when an output is present, then returns `output!`; the schema
validation of the wrapper turns a missing output into a failure. -/
def generateRecipeFlow (input : GenerateRecipeInput)
    (promptOutput : Option GenerateRecipeOutput) : Except GenError GenerateRecipeOutput :=
  let body : Option GenerateRecipeOutput :=
    match promptOutput with
    | some output => some { output with recipeName := input.recipeName }
    | none => none
  validateFlowOutput body

/-- Output schema of `detectFood`. -/
structure DetectFoodOutput where
  foodItems : List String
deriving DecidableEq, Repr

/-- `detectFoodFlow` (`src/src/ai/flows/detect-food.ts`, lines 44–54):
the body returns `output!` unchanged; the wrapper's schema validation
turns a missing output into a failure. -/
def detectFoodFlow (promptOutput : Option DetectFoodOutput) :
    Except GenError DetectFoodOutput :=
  validateFlowOutput promptOutput

/-! ## Helper lemmas -/

/-- Membership in the deduplication scan: an element appears iff it is in
the remaining input and was not already inserted. -/
theorem mem_jsSetDedupAux (l : List String) :
    ∀ (seen : List String) (a : String),
      a ∈ jsSetDedupAux seen l ↔ a ∈ l ∧ a ∉ seen := by
  induction l with
  | nil => intro seen a; simp [jsSetDedupAux]
  | cons x xs ih =>
    intro seen a
    by_cases hx : x ∈ seen
    · rw [jsSetDedupAux, if_pos hx, ih]
      constructor
      · rintro ⟨ha, hs⟩
        exact ⟨List.mem_cons_of_mem _ ha, hs⟩
      · rintro ⟨ha, hs⟩
        rcases List.mem_cons.mp ha with rfl | ha
        · exact absurd hx hs
        · exact ⟨ha, hs⟩
    · rw [jsSetDedupAux, if_neg hx]
      by_cases hax : a = x
      · subst hax
        simp [hx]
      · rw [List.mem_cons, ih]
        simp [List.mem_cons, hax]

/-- Membership is preserved by JavaScript-`Set` deduplication. -/
theorem mem_jsSetDedup (l : List String) (a : String) :
    a ∈ jsSetDedup l ↔ a ∈ l := by
  rw [jsSetDedup, mem_jsSetDedupAux]
  simp

/-- The deduplication scan yields a duplicate-free list. -/
theorem nodup_jsSetDedupAux (l : List String) :
    ∀ seen : List String, (jsSetDedupAux seen l).Nodup := by
  induction l with
  | nil => intro seen; simp [jsSetDedupAux]
  | cons x xs ih =>
    intro seen
    by_cases hx : x ∈ seen
    · rw [jsSetDedupAux, if_pos hx]
      exact ih seen
    · rw [jsSetDedupAux, if_neg hx]
      refine List.nodup_cons.mpr ⟨?_, ih (x :: seen)⟩
      intro hmem
      exact ((mem_jsSetDedupAux xs (x :: seen) x).mp hmem).2 (List.mem_cons_self x seen)

/-- JavaScript-`Set` deduplication yields a duplicate-free list. -/
theorem nodup_jsSetDedup (l : List String) : (jsSetDedup l).Nodup :=
  nodup_jsSetDedupAux l []

/-- Normalization never yields a blank entry. -/
theorem blank_not_mem_parseIngredients (s : String) : "" ∉ parseIngredients s := by
  intro h
  simp [parseIngredients, List.mem_filter] at h

/-! ## Claim theorems -/

/-- C1: during the generating stage, if the recipe-text call fails then —
whichever of the two calls settles first — once both have settled the
final state has no active recipe and the stage is back to idle; the image
settlement (fulfilled or rejected) is never applied. -/
theorem c1_fatal_overrides_late_success
    (s : PageState) (recipeName : String) (e : GenError)
    (imgSettled : Except GenError GenerateImageOutput) (events : List SettleEvent)
    (hing : parseIngredients s.ingredients ≠ [])
    (horder : events = [SettleEvent.text (Except.error e), SettleEvent.image imgSettled] ∨
              events = [SettleEvent.image imgSettled, SettleEvent.text (Except.error e)]) :
    (runHandleGenerateRecipe_p0 s recipeName events).activeRecipe = none ∧
    (runHandleGenerateRecipe_p0 s recipeName events).isLoading = LoadingFlag.off := by
  rcases horder with h | h <;>
    subst h <;>
    simp [runHandleGenerateRecipe_p0, hing, collectText, collectImage,
      handleGenerateRecipeSettle_p0]

theorem c1_fatal_overrides_late_success_witness :
    (parseIngredients "egg, flour" ≠ [] ∧
      [SettleEvent.image (Except.ok { imageUrl := some "data:image/png;base64,AAA" }),
        SettleEvent.text (Except.error (GenError.err "model failure"))] =
        [SettleEvent.text (Except.error (GenError.err "model failure")),
          SettleEvent.image (Except.ok { imageUrl := some "data:image/png;base64,AAA" })] ∨
      [SettleEvent.image (Except.ok { imageUrl := some "data:image/png;base64,AAA" }),
        SettleEvent.text (Except.error (GenError.err "model failure"))] =
        [SettleEvent.image (Except.ok { imageUrl := some "data:image/png;base64,AAA" }),
          SettleEvent.text (Except.error (GenError.err "model failure"))]) ∧
    (runHandleGenerateRecipe_p0
        { ingredients := "egg, flour", suggestedRecipes := [], activeRecipe := none,
          isLoading := LoadingFlag.off } "Pancakes"
        [SettleEvent.image (Except.ok { imageUrl := some "data:image/png;base64,AAA" }),
          SettleEvent.text (Except.error (GenError.err "model failure"))]).activeRecipe = none ∧
    (runHandleGenerateRecipe_p0
        { ingredients := "egg, flour", suggestedRecipes := [], activeRecipe := none,
          isLoading := LoadingFlag.off } "Pancakes"
        [SettleEvent.image (Except.ok { imageUrl := some "data:image/png;base64,AAA" }),
          SettleEvent.text (Except.error (GenError.err "model failure"))]).isLoading =
      LoadingFlag.off := by
  refine ⟨Or.inr (by decide), ?_⟩
  exact c1_fatal_overrides_late_success
    { ingredients := "egg, flour", suggestedRecipes := [], activeRecipe := none,
      isLoading := LoadingFlag.off } "Pancakes" (GenError.err "model failure")
    (Except.ok { imageUrl := some "data:image/png;base64,AAA" }) _
    (by decide) (Or.inr rfl)

/-- C2: with the pipeline stage not idle, the Suggest Recipes trigger is a
no-op — the state (in particular `PipelineStage`) is unchanged and no
suggestion network call is issued — and, in general, triggering can only
change the stage when the current stage is idle. -/
theorem c2_at_most_one_stage (s : PageState)
    (h : s.isLoading ≠ LoadingFlag.off) :
    triggerSuggestRecipes s = (s, false) ∧
    (∀ t : PageState,
      (triggerSuggestRecipes t).1.isLoading ≠ t.isLoading → t.isLoading = LoadingFlag.off) := by
  constructor
  · simp [triggerSuggestRecipes, suggestButtonDisabled, h]
  · intro t ht
    by_contra hoff
    simp [triggerSuggestRecipes, suggestButtonDisabled, hoff] at ht

theorem c2_at_most_one_stage_witness :
    ({ ingredients := "egg", suggestedRecipes := [], activeRecipe := none,
        isLoading := LoadingFlag.detect } : PageState).isLoading ≠ LoadingFlag.off ∧
    triggerSuggestRecipes
        { ingredients := "egg", suggestedRecipes := [], activeRecipe := none,
          isLoading := LoadingFlag.detect } =
      ({ ingredients := "egg", suggestedRecipes := [], activeRecipe := none,
          isLoading := LoadingFlag.detect }, false) := by
  refine ⟨by decide, ?_⟩
  exact (c2_at_most_one_stage
    { ingredients := "egg", suggestedRecipes := [], activeRecipe := none,
      isLoading := LoadingFlag.detect } (by decide)).1

/-- C10: the cited Generation Client operations (`generateRecipeFlow`,
`detectFoodFlow`) never return a null/partial success: when the model
produces no structured output the flow fails with a schema error, and
when it produces one the flow returns exactly the declared shape (with
the recipe name overwritten by the requested one). -/
theorem c10_schema_or_failure (input : GenerateRecipeInput)
    (promptOutput : Option GenerateRecipeOutput) (foodOutput : Option DetectFoodOutput) :
    (generateRecipeFlow input promptOutput =
        Except.error (GenError.err "schema validation failed: no output") ∧
        promptOutput = none ∨
      ∃ output, promptOutput = some output ∧
        generateRecipeFlow input promptOutput =
          Except.ok { output with recipeName := input.recipeName }) ∧
    (detectFoodFlow foodOutput =
        Except.error (GenError.err "schema validation failed: no output") ∧
        foodOutput = none ∨
      ∃ output, foodOutput = some output ∧ detectFoodFlow foodOutput = Except.ok output) := by
  constructor
  · cases promptOutput with
    | none => exact Or.inl ⟨rfl, rfl⟩
    | some output => exact Or.inr ⟨output, rfl, rfl⟩
  · cases foodOutput with
    | none => exact Or.inl ⟨rfl, rfl⟩
    | some output => exact Or.inr ⟨output, rfl, rfl⟩

/-- C3 (counterexample): in the `_v3` variant a call to the generating
operation with a non-empty parsed ingredient list but an already-active
recipe does not publish a shell — the previously active recipe (name
"Old Soup", non-empty lists) stays published, so no `ActiveRecipe` with
the requested name and empty lists exists before the async result
resolves. -/
theorem c3_shell_not_published_counterexample :
    parseIngredients "egg, flour" ≠ [] ∧
    (handleGenerateRecipeSync_v3
        { ingredients := "egg, flour", suggestedRecipes := [],
          activeRecipe := some { recipeName := "Old Soup", ingredients := ["water"],
                                 instructions := ["boil"] },
          isLoading := LoadingFlag.off } "Pancakes").activeRecipe =
      some { recipeName := "Old Soup", ingredients := ["water"], instructions := ["boil"] } ∧
    ("Old Soup" : String) ≠ "Pancakes" ∧ (["water"] : List String) ≠ [] := by
  refine ⟨by decide, ?_, by decide, by decide⟩
  rfl

/-- C3 (amended): in part_000 every generating call with a non-empty
parsed ingredient list synchronously publishes a shell `ActiveRecipe`
(requested name, empty lists); in the `_v3` variant the shell (which also
carries the originating suggestion's image) is published only when no
recipe is active, an already-active recipe being left in place under the
loading overlay.  In both variants the settling recipe result replaces
the active recipe wholesale. -/
theorem c3_shell_then_replace_amended
    (s : PageState) (s3 : PageState3) (n : String) (res : GenerateRecipeOutput)
    (hing : parseIngredients s.ingredients ≠ [])
    (hing3 : parseIngredients s3.ingredients ≠ []) :
    ((handleGenerateRecipeSync_p0 s n).activeRecipe =
        some { recipeName := n, ingredients := [], instructions := [] } ∧
      (handleGenerateRecipeSync_p0 s n).isLoading = LoadingFlag.recipe) ∧
    (s3.activeRecipe = none →
      (handleGenerateRecipeSync_v3 s3 n).activeRecipe =
        some { recipeName := n, ingredients := [], instructions := [],
               imageUrl := (s3.suggestedRecipes.find?
                 (fun r => r.recipeName = n)).bind (fun r => r.imageUrl) }) ∧
    (∀ old, s3.activeRecipe = some old →
      (handleGenerateRecipeSync_v3 s3 n).activeRecipe = some old) ∧
    (∀ (s' : PageState) (imgSettled : Except GenError GenerateImageOutput),
      ∃ fin, (handleGenerateRecipeSettle_p0 s' n (Except.ok res) imgSettled).activeRecipe =
          some fin ∧
        fin.recipeName = res.recipeName ∧ fin.ingredients = res.ingredients ∧
        fin.instructions = res.instructions) ∧
    (∀ s3' : PageState3,
      ∃ fin, (handleGenerateRecipeSettle_v3 s3' n (Except.ok res)).activeRecipe = some fin ∧
        fin.recipeName = res.recipeName ∧ fin.ingredients = res.ingredients ∧
        fin.instructions = res.instructions) := by
  refine ⟨?_, ?_, ?_, ?_, ?_⟩
  · simp [handleGenerateRecipeSync_p0, hing]
  · intro hnone
    simp [handleGenerateRecipeSync_v3, hing3, hnone]
  · intro old hold
    simp [handleGenerateRecipeSync_v3, hing3, hold]
  · intro s' imgSettled
    exact ⟨_, rfl, rfl, rfl, rfl⟩
  · intro s3'
    exact ⟨_, rfl, rfl, rfl, rfl⟩

theorem c3_shell_then_replace_amended_witness :
    parseIngredients "egg" ≠ [] ∧
    (handleGenerateRecipeSync_p0
        { ingredients := "egg", suggestedRecipes := [], activeRecipe := none,
          isLoading := LoadingFlag.off } "Pancakes").activeRecipe =
      some { recipeName := "Pancakes", ingredients := [], instructions := [] } := by
  refine ⟨by decide, ?_⟩
  exact (c3_shell_then_replace_amended
    { ingredients := "egg", suggestedRecipes := [], activeRecipe := none,
      isLoading := LoadingFlag.off }
    { ingredients := "egg", suggestedRecipes := [], activeRecipe := none,
      isLoading := LoadingFlag.off }
    "Pancakes" { recipeName := "Pancakes", ingredients := ["egg"], instructions := ["mix"] }
    (by decide) (by decide)).1.1

/-- C5 (counterexample): in the part_001 dialog a failing `askChef` call
appends only the user's question — no fallback model turn — so the
transcript gains one turn, not two. -/
theorem c5_silent_failure_counterexample :
    (handleSendMessage_p1 { messages := [], input := "Can I freeze it?", isChefLoading := false }
        (Except.error (GenError.err "network"))).messages =
      [{ role := ChatRole.user, content := "Can I freeze it?" }] ∧
    (handleSendMessage_p1 { messages := [], input := "Can I freeze it?", isChefLoading := false }
        (Except.error (GenError.err "network"))).messages.length ≠ 2 := by
  constructor
  · rfl
  · decide

/-- C5 (amended): for a non-blank question with no request in flight and
a failing `askChef` call, the part_000 dialog appends exactly two turns —
the user's question then the fixed fallback apology — and surfaces the
failure nowhere outside the transcript, while the part_001 dialog
appends only the user's question. -/
theorem c5_chat_completeness_amended (st : ChatState) (e : GenError)
    (hinput : jsTrim st.input ≠ "")
    (hidle : st.isChefLoading = false) :
    (handleSendMessage_p0 st (Except.error e)).messages =
      st.messages ++ [{ role := ChatRole.user, content := st.input },
                      { role := ChatRole.model, content := chefFallbackMessage }] ∧
    (handleSendMessage_p0 st (Except.error e)).isChefLoading = false ∧
    (handleSendMessage_p1 st (Except.error e)).messages =
      st.messages ++ [{ role := ChatRole.user, content := st.input }] := by
  refine ⟨?_, ?_, ?_⟩ <;>
    simp [handleSendMessage_p0, handleSendMessage_p1, hinput, hidle]

theorem c5_chat_completeness_amended_witness :
    jsTrim "Can I freeze it?" ≠ "" ∧
    (handleSendMessage_p0 { messages := [], input := "Can I freeze it?", isChefLoading := false }
        (Except.error (GenError.err "network"))).messages =
      [{ role := ChatRole.user, content := "Can I freeze it?" },
       { role := ChatRole.model, content := chefFallbackMessage }] := by
  refine ⟨by decide, ?_⟩
  have h := c5_chat_completeness_amended
    { messages := [], input := "Can I freeze it?", isChefLoading := false }
    (GenError.err "network") (by decide) rfl
  simpa using h.1

/-- C9 (counterexample): the part_002 `generateImageFlow` treats a model
response with no media as an error — it throws
`'Image generation failed.'` instead of returning a successful
absent-image result. -/
theorem c9_p2_throws_counterexample :
    generateImageFlow_p2 (Except.ok none) =
      Except.error (GenError.err "Image generation failed.") := by
  rfl

/-- C9 (amended): the `src/src/ai/flows/generate-image.ts` variant never
fails — every input yields a successful result, with the image absent on
a generation failure or missing media and present exactly when the model
returned a non-empty media url; the part_002 variant instead propagates
generation failures and throws `'Image generation failed.'` when the
model returns no media. -/
theorem c9_absent_image_amended (gen : Except GenError (Option String)) (e : GenError) :
    (∃ out, generateImageFlow_src gen = Except.ok out) ∧
    generateImageFlow_src (Except.error e) = Except.ok { imageUrl := none } ∧
    generateImageFlow_src (Except.ok none) = Except.ok { imageUrl := none } ∧
    (∀ url, url ≠ "" →
      generateImageFlow_src (Except.ok (some url)) = Except.ok { imageUrl := some url }) ∧
    generateImageFlow_p2 (Except.ok none) =
      Except.error (GenError.err "Image generation failed.") ∧
    (∀ e2, generateImageFlow_p2 (Except.error e2) = Except.error e2) := by
  refine ⟨?_, rfl, rfl, ?_, rfl, fun e2 => rfl⟩
  · cases gen with
    | error _ => exact ⟨_, rfl⟩
    | ok mediaUrl =>
      by_cases h : jsTruthy mediaUrl = true
      · exact ⟨{ imageUrl := mediaUrl }, by simp [generateImageFlow_src, h]⟩
      · exact ⟨{ imageUrl := none }, by simp [generateImageFlow_src, h]⟩
  · intro url hurl
    simp [generateImageFlow_src, jsTruthy, hurl]

theorem c9_absent_image_amended_witness :
    ("data:image/png;base64,AAA" : String) ≠ "" ∧
    generateImageFlow_src (Except.ok (some "data:image/png;base64,AAA")) =
      Except.ok { imageUrl := some "data:image/png;base64,AAA" } := by
  refine ⟨by decide, ?_⟩
  exact (c9_absent_image_amended (Except.ok (some "data:image/png;base64,AAA"))
    (GenError.err "unused")).2.2.2.1 "data:image/png;base64,AAA" (by decide)

/-- C6 (counterexample): the normalized ingredient set can contain
duplicates.  Manually entering the same name twice ("tomato, tomato")
parses to two occurrences, and even the detection merge admits them: a
detected item is merged untrimmed, so detecting "tomato " over an
existing "tomato" survives normalization as a duplicate. -/
theorem c6_manual_duplicate_counterexample :
    parseIngredients "tomato, tomato" = ["tomato", "tomato"] ∧
    List.count "tomato" (parseIngredients "tomato, tomato") = 2 ∧
    parseIngredients (mergeDetectedIngredients "tomato" ["tomato "]) =
      ["tomato", "tomato"] := by
  refine ⟨by decide, by decide, by decide⟩

/-- C6 (amended): merging detected names into the ingredient set is a
case-sensitive exact-string union — the merged list is duplicate-free,
membership is exactly membership in the normalized previous set or in the
detected batch, and a name detected (even repeatedly) occurs exactly
once; normalization never yields blank entries.  Normalization itself
does not deduplicate, so manually entered duplicates and untrimmed
whitespace variants of detected names can survive (see the
counterexample). -/
theorem c6_detection_merge_amended :
    (∀ (prev : String) (foodItems : List String),
      (mergedIngredientList prev foodItems).Nodup) ∧
    (∀ (prev : String) (foodItems : List String) (a : String),
      a ∈ mergedIngredientList prev foodItems ↔
        a ∈ parseIngredients prev ∨ a ∈ foodItems) ∧
    (∀ (prev : String) (foodItems : List String) (n : String), n ∈ foodItems →
      List.count n (mergedIngredientList prev foodItems) = 1) ∧
    (∀ s : String, "" ∉ parseIngredients s) := by
  refine ⟨?_, ?_, ?_, blank_not_mem_parseIngredients⟩
  · intro prev foodItems
    exact nodup_jsSetDedup _
  · intro prev foodItems a
    rw [mergedIngredientList, mem_jsSetDedup, List.mem_append]
  · intro prev foodItems n hn
    refine List.count_eq_one_of_mem (nodup_jsSetDedup _) ?_
    rw [mergedIngredientList, mem_jsSetDedup, List.mem_append]
    exact Or.inr hn

theorem c6_detection_merge_amended_witness :
    ("tomato" : String) ∈ ["tomato", "tomato"] ∧
    List.count "tomato" (mergedIngredientList "potato" ["tomato", "tomato"]) = 1 := by
  refine ⟨by decide, ?_⟩
  exact c6_detection_merge_amended.2.2.1 "potato" ["tomato", "tomato"] "tomato" (by decide)

/-- C7 (counterexample): invoking read-aloud (part_000) while an
utterance is speaking does not start an utterance with the new call's
text — it pauses the live one, which still carries the first call's text
(here the "Old Soup" reading, while the second call is for
"Pancakes"). -/
theorem c7_second_call_pauses_counterexample :
    handleReadAloud_p0 SpeechStatus.speaking
        { queue := [textForSpeech_p0 { recipeName := "Old Soup", ingredients := ["water"],
                                       instructions := ["boil water"] }], paused := false }
        { recipeName := "Pancakes", ingredients := ["egg"], instructions := ["mix", "fry"] } =
      (SpeechStatus.paused,
        { queue := [textForSpeech_p0 { recipeName := "Old Soup", ingredients := ["water"],
                                       instructions := ["boil water"] }], paused := true }) ∧
    textForSpeech_p0 { recipeName := "Old Soup", ingredients := ["water"],
                       instructions := ["boil water"] } ≠
      textForSpeech_p0 { recipeName := "Pancakes", ingredients := ["egg"],
                         instructions := ["mix", "fry"] } := by
  exact ⟨rfl, by decide⟩

/-- C7 (amended): at most one utterance is ever live.  A read-aloud
invocation from the idle status (part_000) cancels any previous utterance
before speaking, leaving exactly the new call's utterance in the queue;
an invocation while speaking or paused enqueues nothing (part_000 pauses
or resumes, part_001 is a no-op), so the live utterance — if any — still
carries the first call's text; and the part_001 idle branch, which speaks
without cancelling, yields exactly one utterance whenever the queue was
empty. -/
theorem c7_speech_exclusivity_amended (synth : SynthState) (recipe : ActiveRecipe)
    (status : SpeechStatus) (hbusy : status ≠ SpeechStatus.idle) :
    (handleReadAloud_p0 SpeechStatus.idle synth recipe).2.queue =
      [textForSpeech_p0 recipe] ∧
    (handleReadAloud_p0 status synth recipe).2.queue = synth.queue ∧
    handleReadAloud_p1 status synth recipe = (status, synth) ∧
    (synth.queue = [] →
      (handleReadAloud_p1 SpeechStatus.idle synth recipe).2.queue =
        [textToSpeak_p1 recipe]) := by
  refine ⟨rfl, ?_, ?_, ?_⟩
  · cases status with
    | idle => exact absurd rfl hbusy
    | speaking => rfl
    | paused => rfl
  · simp [handleReadAloud_p1, hbusy]
  · intro hq
    simp [handleReadAloud_p1, synthSpeak, hq]

theorem c7_speech_exclusivity_amended_witness :
    (SpeechStatus.speaking ≠ SpeechStatus.idle) ∧
    (handleReadAloud_p0 SpeechStatus.idle { queue := ["stale reading"], paused := false }
        { recipeName := "Pancakes", ingredients := ["egg"],
          instructions := ["mix", "fry"] }).2.queue =
      [textForSpeech_p0 { recipeName := "Pancakes", ingredients := ["egg"],
                          instructions := ["mix", "fry"] }] := by
  refine ⟨by decide, ?_⟩
  exact (c7_speech_exclusivity_amended { queue := ["stale reading"], paused := false }
    { recipeName := "Pancakes", ingredients := ["egg"], instructions := ["mix", "fry"] }
    SpeechStatus.speaking (by decide)).1

/-- With a usable repaired device id, part_000's `setupWebcam` selects it,
requests an exact stream for it, and keeps the webcam on exactly when
acquisition succeeds. -/
theorem setupWebcam_p0_repair (videoInputs : List MediaDeviceInfo) (sel : String)
    (gumOk : Bool) (did : String)
    (hcam : cameraToUse_p0 videoInputs sel = some did) (hdid : did ≠ "")
    (hrep : sel = "" ∨ (videoInputs.find? (fun d => d.deviceId = sel)).isNone) :
    setupWebcam_p0 videoInputs sel gumOk =
      { videoDevices := videoInputs, selectedCamera := did, isWebcamOn := gumOk,
        requestedDevice := some (some did) } := by
  rcases hrep with rfl | hnone
  · simp [setupWebcam_p0, hcam, jsTruthy, hdid]
  · simp [setupWebcam_p0, hcam, jsTruthy, hdid, hnone]

/-- With a usable repaired device id, the `_v3` `setupWebcam` selects it,
requests an exact stream for it, and keeps the webcam on exactly when
acquisition succeeds. -/
theorem setupWebcam_v3_repair (videoInputs : List MediaDeviceInfo) (sel : String)
    (gumOk : Bool) (did : String)
    (hcam : cameraToUse_v3 videoInputs sel = some did) (hdid : did ≠ "")
    (hrep : sel = "" ∨ (videoInputs.find? (fun d => d.deviceId = sel)).isNone) :
    setupWebcam_v3 videoInputs sel gumOk =
      { videoDevices := videoInputs, selectedCamera := did, isWebcamOn := gumOk,
        requestedDevice := some (some did) } := by
  rcases hrep with rfl | hnone
  · simp [setupWebcam_v3, hcam, jsTruthy, hdid]
  · simp [setupWebcam_v3, hcam, jsTruthy, hdid, hnone]

/-- Under a stale or empty selection the repaired `cameraToUse` of
part_000 is an enumerated device's id — the preferred labeled device if
one is found, otherwise the first device. -/
theorem cameraToUse_p0_mem (videoInputs : List MediaDeviceInfo) (sel : String)
    (hrep : sel = "" ∨ (videoInputs.find? (fun d => d.deviceId = sel)).isNone)
    (hne : videoInputs ≠ [])
    (hids : ∀ d ∈ videoInputs, d.deviceId ≠ "") :
    ∃ d ∈ videoInputs, cameraToUse_p0 videoInputs sel = some d.deviceId ∧
      (∀ d0, videoInputs.find? isIntegratedLabel = some d0 → d = d0) := by
  rw [cameraToUse_p0, if_pos hrep]
  cases hfind : videoInputs.find? isIntegratedLabel with
  | some d0 =>
    have hmem := List.mem_of_find?_eq_some hfind
    refine ⟨d0, hmem, ?_, ?_⟩
    · simp [jsOrStr, jsTruthy, hids d0 hmem]
    · intro d1 h1
      exact Option.some_injective _ h1
  | none =>
    match videoInputs, hne with
    | h0 :: rest, _ =>
      refine ⟨h0, List.mem_cons_self h0 rest, ?_, ?_⟩
      · simp [jsOrStr, jsTruthy]
      · intro d1 h1
        exact Option.noConfusion h1

/-- Under a stale or empty selection the repaired `cameraToUse` of the
`_v3` variant is an enumerated device's id — the preferred labeled device
if one is found, otherwise the first device. -/
theorem cameraToUse_v3_mem (videoInputs : List MediaDeviceInfo) (sel : String)
    (hrep : sel = "" ∨ (videoInputs.find? (fun d => d.deviceId = sel)).isNone)
    (hne : videoInputs ≠ [])
    (hids : ∀ d ∈ videoInputs, d.deviceId ≠ "") :
    ∃ d ∈ videoInputs, cameraToUse_v3 videoInputs sel = some d.deviceId ∧
      (∀ d0, videoInputs.find? isExternalLabel = some d0 → d = d0) := by
  rw [cameraToUse_v3, if_pos hrep]
  cases hfind : videoInputs.find? isExternalLabel with
  | some d0 =>
    have hmem := List.mem_of_find?_eq_some hfind
    refine ⟨d0, hmem, ?_, ?_⟩
    · simp [jsOrStr, jsTruthy, hids d0 hmem]
    · intro d1 h1
      exact Option.some_injective _ h1
  | none =>
    match videoInputs, hne with
    | h0 :: rest, _ =>
      refine ⟨h0, List.mem_cons_self h0 rest, ?_, ?_⟩
      · simp [jsOrStr, jsTruthy]
      · intro d1 h1
        exact Option.noConfusion h1

/-- C8 (counterexample): the `_v3` `setupWebcam` does not follow the
built-in/integrated desktop policy — with no prior selection and both a
built-in and a USB camera enumerated, it repairs the selection to the USB
device, not the labeled built-in one. -/
theorem c8_external_preferred_counterexample :
    cameraToUse_v3 [{ deviceId := "cam1", label := "Built-in Camera" },
      { deviceId := "cam2", label := "USB Webcam" }] "" = some "cam2" ∧
    isIntegratedLabel { deviceId := "cam1", label := "Built-in Camera" } = true ∧
    isExternalLabel { deviceId := "cam1", label := "Built-in Camera" } = false ∧
    (setupWebcam_v3 [{ deviceId := "cam1", label := "Built-in Camera" },
      { deviceId := "cam2", label := "USB Webcam" }] "" true).selectedCamera = "cam2" ∧
    ("cam2" : String) ≠ "cam1" := by
  refine ⟨by decide, by decide, by decide, by decide, by decide⟩

/-- C8 (amended): when the camera is enabled and the selection is empty
or no longer among the freshly enumerated devices (all carrying usable
ids), both `setupWebcam` variants repair the selection to an enumerated
device and request an exact stream for it, keeping the camera on exactly
when acquisition succeeds; part_000 prefers a
facetime/built-in/integrated-labeled device while the `_v3` variant
prefers a usb/external-labeled one, each falling back to the first
enumerated device. -/
theorem c8_camera_repair_amended (videoInputs : List MediaDeviceInfo) (sel : String)
    (gumOk : Bool)
    (hrep : sel = "" ∨ (videoInputs.find? (fun d => d.deviceId = sel)).isNone)
    (hne : videoInputs ≠ [])
    (hids : ∀ d ∈ videoInputs, d.deviceId ≠ "") :
    (∃ d ∈ videoInputs,
      (setupWebcam_p0 videoInputs sel gumOk).selectedCamera = d.deviceId ∧
      (setupWebcam_p0 videoInputs sel gumOk).requestedDevice = some (some d.deviceId) ∧
      (∀ d0, videoInputs.find? isIntegratedLabel = some d0 → d = d0)) ∧
    (setupWebcam_p0 videoInputs sel gumOk).isWebcamOn = gumOk ∧
    (∃ d ∈ videoInputs,
      (setupWebcam_v3 videoInputs sel gumOk).selectedCamera = d.deviceId ∧
      (setupWebcam_v3 videoInputs sel gumOk).requestedDevice = some (some d.deviceId) ∧
      (∀ d0, videoInputs.find? isExternalLabel = some d0 → d = d0)) ∧
    (setupWebcam_v3 videoInputs sel gumOk).isWebcamOn = gumOk := by
  obtain ⟨d, hdmem, hdcam, hdpref⟩ := cameraToUse_p0_mem videoInputs sel hrep hne hids
  obtain ⟨d', hdmem', hdcam', hdpref'⟩ := cameraToUse_v3_mem videoInputs sel hrep hne hids
  have h0 := setupWebcam_p0_repair videoInputs sel gumOk d.deviceId hdcam
    (hids d hdmem) hrep
  have h3 := setupWebcam_v3_repair videoInputs sel gumOk d'.deviceId hdcam'
    (hids d' hdmem') hrep
  rw [h0, h3]
  exact ⟨⟨d, hdmem, rfl, rfl, hdpref⟩, rfl, ⟨d', hdmem', rfl, rfl, hdpref'⟩, rfl⟩

theorem c8_camera_repair_amended_witness :
    (("stale" : String) = "" ∨
      (List.find? (fun d => d.deviceId = "stale")
        [({ deviceId := "cam1", label := "Built-in Camera" } : MediaDeviceInfo)]).isNone) ∧
    (setupWebcam_p0 [{ deviceId := "cam1", label := "Built-in Camera" }]
        "stale" true).selectedCamera = "cam1" ∧
    (setupWebcam_p0 [{ deviceId := "cam1", label := "Built-in Camera" }]
        "stale" true).isWebcamOn = true := by
  refine ⟨by decide, ?_, ?_⟩
  · obtain ⟨⟨d, hdmem, hsel, -, hpref⟩, -, -, -⟩ :=
      c8_camera_repair_amended [{ deviceId := "cam1", label := "Built-in Camera" }]
        "stale" true (by decide) (by decide) (by decide)
    have : d = { deviceId := "cam1", label := "Built-in Camera" } := by
      simpa using hdmem
    rw [hsel, this]
  · exact (c8_camera_repair_amended [{ deviceId := "cam1", label := "Built-in Camera" }]
      "stale" true (by decide) (by decide) (by decide)).2.1

/-- A callback never changes the length of the suggestion list. -/
theorem applyEnrichment_v3_length (l : List RecipeSuggestionWithImage) (i : Nat)
    (o : Except GenError GenerateImageOutput) :
    (applyEnrichment_v3 l i o).length = l.length := by
  rw [applyEnrichment_v3]
  cases h : l[i]? with
  | none => rfl
  | some item => simp

/-- A callback writes only to its own slot. -/
theorem applyEnrichment_v3_getElem?_ne (l : List RecipeSuggestionWithImage) (i j : Nat)
    (o : Except GenError GenerateImageOutput) (hij : i ≠ j) :
    (applyEnrichment_v3 l i o)[j]? = l[j]? := by
  rw [applyEnrichment_v3]
  cases h : l[i]? with
  | none => rfl
  | some item => exact List.getElem?_set_ne hij

/-- A callback updates its own slot with the per-item enrichment. -/
theorem applyEnrichment_v3_getElem?_self (l : List RecipeSuggestionWithImage) (i : Nat)
    (o : Except GenError GenerateImageOutput) (item : RecipeSuggestionWithImage)
    (h : l[i]? = some item) :
    (applyEnrichment_v3 l i o)[i]? = some (enrichItem item o) := by
  obtain ⟨hi, -⟩ := List.getElem?_eq_some.mp h
  rw [applyEnrichment_v3, h]
  exact List.getElem?_set_self (by simpa using hi)

/-- Unfolding equation for the callback fold. -/
theorem applyEnrichments_v3_cons (l : List RecipeSuggestionWithImage)
    (p : Nat × Except GenError GenerateImageOutput)
    (rest : List (Nat × Except GenError GenerateImageOutput)) :
    applyEnrichments_v3 l (p :: rest) =
      applyEnrichments_v3 (applyEnrichment_v3 l p.1 p.2) rest := rfl

/-- The callbacks never change the length of the suggestion list. -/
theorem applyEnrichments_v3_length
    (order : List (Nat × Except GenError GenerateImageOutput)) :
    ∀ l : List RecipeSuggestionWithImage,
      (applyEnrichments_v3 l order).length = l.length := by
  induction order with
  | nil => intro l; rfl
  | cons p rest ih =>
    intro l
    rw [applyEnrichments_v3_cons, ih, applyEnrichment_v3_length]

/-- A slot no callback addresses is left untouched. -/
theorem applyEnrichments_v3_getElem?_of_forall_ne
    (order : List (Nat × Except GenError GenerateImageOutput)) (j : Nat) :
    ∀ l : List RecipeSuggestionWithImage, (∀ p ∈ order, p.1 ≠ j) →
      (applyEnrichments_v3 l order)[j]? = l[j]? := by
  induction order with
  | nil => intro l _; rfl
  | cons p rest ih =>
    intro l hne
    rw [applyEnrichments_v3_cons,
      ih _ (fun q hq => hne q (List.mem_cons_of_mem _ hq)),
      applyEnrichment_v3_getElem?_ne _ _ _ _ (hne p (List.mem_cons_self _ _))]

/-- If slot `j` is addressed by exactly one callback, the final list holds
that callback's enrichment of the original item at `j`, whatever the
order of the other callbacks. -/
theorem applyEnrichments_v3_slot (j : Nat) (o : Except GenError GenerateImageOutput)
    (pre post : List (Nat × Except GenError GenerateImageOutput)) :
    ∀ (l : List RecipeSuggestionWithImage) (item : RecipeSuggestionWithImage),
      l[j]? = some item →
      (∀ p ∈ pre, p.1 ≠ j) → (∀ p ∈ post, p.1 ≠ j) →
      (applyEnrichments_v3 l (pre ++ (j, o) :: post))[j]? =
        some (enrichItem item o) := by
  induction pre with
  | nil =>
    intro l item hitem hpre hpost
    rw [List.nil_append, applyEnrichments_v3_cons,
      applyEnrichments_v3_getElem?_of_forall_ne post j _ hpost]
    exact applyEnrichment_v3_getElem?_self l j o item hitem
  | cons q pre' ih =>
    intro l item hitem hpre hpost
    rw [List.cons_append, applyEnrichments_v3_cons]
    refine ih (applyEnrichment_v3 l q.1 q.2) item ?_
      (fun p hp => hpre p (List.mem_cons_of_mem _ hp)) hpost
    rw [applyEnrichment_v3_getElem?_ne l q.1 j q.2 (hpre q (List.mem_cons_self _ _))]
    exact hitem

/-- Any settlement order of the per-suggestion callbacks — a permutation
of the enumerated outcomes — splits around slot `j`'s unique callback,
with no other callback addressing `j`. -/
theorem exists_split_of_perm_enum {β : Type} (order : List (Nat × β))
    (outcomes : List β) (j : Nat) (oj : β)
    (hperm : order.Perm outcomes.enum) (hj : outcomes[j]? = some oj) :
    ∃ pre post, order = pre ++ (j, oj) :: post ∧
      (∀ p ∈ pre, p.1 ≠ j) ∧ (∀ p ∈ post, p.1 ≠ j) := by
  have hmem : (j, oj) ∈ outcomes.enum := List.mem_enum_iff_getElem?.mpr hj
  obtain ⟨pre, post, heq⟩ := List.append_of_mem (hperm.mem_iff.mpr hmem)
  refine ⟨pre, post, heq, ?_⟩
  obtain ⟨hjlt, -⟩ := List.getElem?_eq_some.mp hj
  have henum : List.countP (fun p => p.1 == j) outcomes.enum = 1 := by
    have hmap := List.countP_map (fun x => x == j) Prod.fst outcomes.enum
    rw [List.enum_map_fst] at hmap
    have hcr : List.count j (List.range outcomes.length) = 1 :=
      List.count_eq_one_of_mem (List.nodup_range _) (List.mem_range.mpr hjlt)
    rw [List.count] at hcr
    exact hmap.symm.trans hcr
  have hcount : List.countP (fun p => p.1 == j) order = 1 := by
    rw [hperm.countP_eq, henum]
  rw [heq, List.countP_append, List.countP_cons] at hcount
  simp only [beq_self_eq_true, if_pos] at hcount
  have hpre : List.countP (fun p => p.1 == j) pre = 0 := by omega
  have hpost : List.countP (fun p => p.1 == j) post = 0 := by omega
  constructor
  · intro p hp
    have := List.countP_eq_zero.mp hpre p hp
    simpa using this
  · intro p hp
    have := List.countP_eq_zero.mp hpost p hp
    simpa using this

/-- C4: in both designs a single suggestion's failed image enrichment is
isolated to that item.  Client-side (`_v3`), for every settlement order of
the per-item callbacks, the item whose call rejected ends with its
loading flag cleared and no image while every item whose call fulfilled
with an image carries it, and the batch keeps its length; flow-side
(`suggestRecipesFlow`), the failing item keeps name and description with
the image absent while fulfilled items carry their media url, and the
batch is returned whole. -/
theorem c4_per_item_image_isolation :
    (∀ (recipes : List RecipeSuggestion)
       (outcomes : List (Except GenError GenerateImageOutput))
       (order : List (Nat × Except GenError GenerateImageOutput)) (i : Nat) (e : GenError),
       outcomes.length = recipes.length →
       order.Perm outcomes.enum →
       (∀ r ∈ recipes, r.imageUrl = none) →
       outcomes[i]? = some (Except.error e) →
       (applyEnrichments_v3 (initSuggestions_v3 recipes) order).length = recipes.length ∧
       (∀ r, recipes[i]? = some r →
         (applyEnrichments_v3 (initSuggestions_v3 recipes) order)[i]? =
           some { recipeName := r.recipeName, description := r.description,
                  imageUrl := none, isLoadingImage := false }) ∧
       (∀ (j : Nat) (u : String) (r : RecipeSuggestion),
         outcomes[j]? = some (Except.ok { imageUrl := some u }) → recipes[j]? = some r →
         (applyEnrichments_v3 (initSuggestions_v3 recipes) order)[j]? =
           some { recipeName := r.recipeName, description := r.description,
                  imageUrl := some u, isLoadingImage := false })) ∧
    (∀ (recipes : List RecipeSuggestion) (outcomes : List (Except GenError (Option String)))
       (i : Nat) (e : GenError),
       outcomes.length = recipes.length →
       outcomes[i]? = some (Except.error e) →
       (suggestRecipesFlow_src (some recipes) outcomes).recipes.length = recipes.length ∧
       (∀ r, recipes[i]? = some r →
         (suggestRecipesFlow_src (some recipes) outcomes).recipes[i]? =
           some { r with imageUrl := none }) ∧
       (∀ (j : Nat) (u : Option String) (r : RecipeSuggestion),
         outcomes[j]? = some (Except.ok u) → recipes[j]? = some r →
         (suggestRecipesFlow_src (some recipes) outcomes).recipes[j]? =
           some { r with imageUrl := u })) := by
  constructor
  · intro recipes outcomes order i e hlen hperm himgs hfail
    have hinitlen : (initSuggestions_v3 recipes).length = recipes.length := by
      simp [initSuggestions_v3]
    refine ⟨by rw [applyEnrichments_v3_length, hinitlen], ?_, ?_⟩
    · intro r hr
      have hinit : (initSuggestions_v3 recipes)[i]? =
          some { recipeName := r.recipeName, description := r.description,
                 imageUrl := r.imageUrl, isLoadingImage := true } := by
        simp [initSuggestions_v3, hr]
      obtain ⟨pre, post, heq, hpre, hpost⟩ :=
        exists_split_of_perm_enum order outcomes i (Except.error e) hperm hfail
      rw [heq, applyEnrichments_v3_slot i (Except.error e) pre post _ _ hinit hpre hpost]
      have hru : r.imageUrl = none := himgs r (List.getElem?_mem hr)
      simp [enrichItem, hru]
    · intro j u r hj hr
      have hinit : (initSuggestions_v3 recipes)[j]? =
          some { recipeName := r.recipeName, description := r.description,
                 imageUrl := r.imageUrl, isLoadingImage := true } := by
        simp [initSuggestions_v3, hr]
      obtain ⟨pre, post, heq, hpre, hpost⟩ :=
        exists_split_of_perm_enum order outcomes j
          (Except.ok { imageUrl := some u }) hperm hj
      rw [heq, applyEnrichments_v3_slot j (Except.ok { imageUrl := some u })
        pre post _ _ hinit hpre hpost]
      simp [enrichItem]
  · intro recipes outcomes i e hlen hfail
    refine ⟨by simp [suggestRecipesFlow_src, hlen], ?_, ?_⟩
    · intro r hr
      simp [suggestRecipesFlow_src, List.getElem?_zipWith, hr, hfail, enrichSuggestion]
    · intro j u r hj hr
      simp [suggestRecipesFlow_src, List.getElem?_zipWith, hr, hj, enrichSuggestion]

theorem c4_per_item_image_isolation_witness :
    (([Except.ok { imageUrl := some "u1" }, Except.ok { imageUrl := some "u2" },
        Except.error (GenError.err "img"), Except.ok { imageUrl := some "u4" },
        Except.ok { imageUrl := some "u5" }] :
       List (Except GenError GenerateImageOutput)).enum).reverse.Perm
      (([Except.ok { imageUrl := some "u1" }, Except.ok { imageUrl := some "u2" },
         Except.error (GenError.err "img"), Except.ok { imageUrl := some "u4" },
         Except.ok { imageUrl := some "u5" }] :
        List (Except GenError GenerateImageOutput)).enum) ∧
    (applyEnrichments_v3
        (initSuggestions_v3
          [{ recipeName := "A", description := "a" }, { recipeName := "B", description := "b" },
           { recipeName := "C", description := "c" }, { recipeName := "D", description := "d" },
           { recipeName := "E", description := "e" }])
        ((([Except.ok { imageUrl := some "u1" }, Except.ok { imageUrl := some "u2" },
            Except.error (GenError.err "img"), Except.ok { imageUrl := some "u4" },
            Except.ok { imageUrl := some "u5" }] :
           List (Except GenError GenerateImageOutput)).enum).reverse))[2]? =
      some { recipeName := "C", description := "c", imageUrl := none,
             isLoadingImage := false } := by
  refine ⟨List.reverse_perm _, ?_⟩
  have h := (c4_per_item_image_isolation.1
    [{ recipeName := "A", description := "a" }, { recipeName := "B", description := "b" },
     { recipeName := "C", description := "c" }, { recipeName := "D", description := "d" },
     { recipeName := "E", description := "e" }]
    [Except.ok { imageUrl := some "u1" }, Except.ok { imageUrl := some "u2" },
     Except.error (GenError.err "img"), Except.ok { imageUrl := some "u4" },
     Except.ok { imageUrl := some "u5" }]
    ((([Except.ok { imageUrl := some "u1" }, Except.ok { imageUrl := some "u2" },
        Except.error (GenError.err "img"), Except.ok { imageUrl := some "u4" },
        Except.ok { imageUrl := some "u5" }] :
       List (Except GenError GenerateImageOutput)).enum).reverse)
    2 (GenError.err "img") rfl (List.reverse_perm _) (by decide) rfl)
  exact h.2.1 { recipeName := "C", description := "c" } rfl

end CulinaryCanvas
